import Mathlib

/-!
Shallow embedding of the carrot-kpi/commons-rs HTTP access layer.

The Rust sources (src/http_client.rs, src/data.rs, src/ipfs.rs) compose a
reusable HTTP client with per-operation retry classification. Network effects
are embedded as oracle functions: each upstream client is a function from the
request data (method, path, and body where the source attaches one) to the
outcome of the request/send/json pipeline. Every operation additionally
returns the list of requests it issued, so that claims about which upstream
was contacted and with which path are stateable.
-/

/-- HTTP method; the sources only ever use GET and POST. -/
inductive Method where
  | GET
  | POST
deriving DecidableEq, Repr

/-- Outcome of one request/send/json pipeline against an upstream:
`constructionFailure` models `HttpClient::request` returning `Err`,
`sendFailure` models `RequestBuilder::send` returning `Err` (transport),
`decodeFailure` models `Response::json` returning `Err`, and
`success` carries the decoded value. Error payloads are opaque strings. -/
inductive HttpOutcome (J : Type) where
  | constructionFailure (err : String)
  | sendFailure (err : String)
  | decodeFailure (err : String)
  | success (value : J)
deriving DecidableEq, Repr

/-- An upstream client as an oracle: the outcome of a bodyless request. -/
def ClientFun (J : Type) : Type := Method → String → HttpOutcome J

/-- Outcome of a request/send pipeline whose response body is consumed as a
raw stream (no json decoding step), as in the `/api/v0/dag/export` call. -/
inductive SendOutcome (B : Type) where
  | constructionFailure (err : String)
  | sendFailure (err : String)
  | success (body : B)
deriving DecidableEq, Repr

/-- Identifies which upstream of the two-tier fetch a request went to. -/
inductive UpstreamId where
  | mirror
  | gateway
deriving DecidableEq, Repr

/-- One request issued during the two-tier fetch. -/
structure ReqEvent where
  target : UpstreamId
  method : Method
  path : String
deriving DecidableEq, Repr

/-- The error type of the `backoff` crate: `Transient` carries the error and
an optional retry-after hint (the sources always pass `None`), `Permanent`
stops the retry loop at once. -/
inductive BackoffError (E : Type) where
  | Transient (err : E) (retry_after : Option Nat)
  | Permanent (err : E)
deriving DecidableEq, Repr

/-- Embedding of `backoff::future::retry`: run the per-attempt operation
(indexed by the attempt number so that distinct attempts may observe distinct
network outcomes); return at once on success or on a `Permanent` error; on a
`Transient` error retry while fuel (the backoff budget) remains, otherwise
return the last transient error. The second component counts the attempts
performed (the next free attempt index when started from `i = 0`). -/
def retryDriver {E A : Type} (op : Nat → Except (BackoffError E) A) :
    Nat → Nat → Except E A × Nat
  | fuel, i =>
    match op i with
    | .ok a => (.ok a, i + 1)
    | .error (.Permanent e) => (.error e, i + 1)
    | .error (.Transient e _) =>
      match fuel with
      | 0 => (.error e, i + 1)
      | f + 1 => retryDriver op f (i + 1)

/-- Embedding of `str::to_lowercase` as applied to cids: lowercase every
character (cids are ASCII, where the Rust function and a per-char map agree).
Defined by a plain list map so that the kernel can evaluate it (the core
`String.toLower` is defined by well-founded recursion and does not reduce). -/
def lowercase (s : String) : String :=
  ⟨s.data.map Char.toLower⟩

/-- A JSON value, the payload universe for the store operations (a payload of
the Rust generic type `J: Serialize` is embedded as its serialized value). -/
inductive Json where
  | null
  | bool (b : Bool)
  | num (n : Int)
  | str (s : String)
  | arr (elements : List Json)
  | obj (fields : List (String × Json))

namespace data

/-- Error type of the two-tier fetch in src/data.rs. -/
inductive FetchJsonError where
  | RequestConstruction (err : String)
  | Request (err : String)
  | Deserialization (err : String)
deriving DecidableEq, Repr

/-- Embedding of `data::fetch_json`: lowercase the cid, GET it as the path on
the mirror (s3) client; propagate a construction failure; on send success
decode the body (decode failure is terminal `Deserialization`); on send
failure fall back to POST `/api/v0/cat?arg=<cid>` on the gateway (ipfs)
client and propagate its construction, transport and decode errors. The
second component records every request issued. -/
def fetch_json {J : Type} (cid : String)
    (s3_http_client ipfs_http_client : ClientFun J) :
    Except FetchJsonError J × List ReqEvent :=
  let cid := lowercase cid
  let mirrorEvent : ReqEvent := ⟨.mirror, .GET, cid⟩
  match s3_http_client .GET cid with
  | .constructionFailure err =>
    (.error (.RequestConstruction err), [mirrorEvent])
  | .decodeFailure err =>
    (.error (.Deserialization err), [mirrorEvent])
  | .success v =>
    (.ok v, [mirrorEvent])
  | .sendFailure _ =>
    let path := "/api/v0/cat?arg=" ++ cid
    let gatewayEvent : ReqEvent := ⟨.gateway, .POST, path⟩
    match ipfs_http_client .POST path with
    | .constructionFailure err =>
      (.error (.RequestConstruction err), [mirrorEvent, gatewayEvent])
    | .sendFailure err =>
      (.error (.Request err), [mirrorEvent, gatewayEvent])
    | .decodeFailure err =>
      (.error (.Deserialization err), [mirrorEvent, gatewayEvent])
    | .success v =>
      (.ok v, [mirrorEvent, gatewayEvent])

/-- The error classification closure inside `data::fetch_json_with_retry`:
construction and transport errors become `Transient` (with no retry-after
hint), deserialization becomes `Permanent`. -/
def classifyFetchError (err : FetchJsonError) : BackoffError FetchJsonError :=
  match err with
  | .RequestConstruction _ => .Transient err none
  | .Request _ => .Transient err none
  | .Deserialization _ => .Permanent err

/-- Embedding of `data::fetch_json_with_retry`: the retried two-tier fetch.
Clients are indexed by the attempt number so that retries may observe fresh
network outcomes; `fuel` is the backoff budget. The second component is the
number of attempts performed. -/
def fetch_json_with_retry {J : Type} (cid : String)
    (s3_http_client ipfs_http_client : Nat → ClientFun J) (fuel : Nat) :
    Except FetchJsonError J × Nat :=
  retryDriver
    (fun i =>
      Except.mapError classifyFetchError
        (fetch_json cid (s3_http_client i) (ipfs_http_client i)).1)
    fuel 0

/-- Error type of the json store in src/data.rs. -/
inductive StoreJsonIpfsError where
  | RequestConstruction (err : String)
  | Request (err : String)
  | Deserialization (err : String)
  | CidMismatch (got : String) (expected : String)
deriving DecidableEq, Repr

/-- Response body of the uploader: a single `cid` field. -/
structure StoreResponse where
  cid : String
deriving DecidableEq, Repr

/-- The `StoreJsonRequest<J>` wrapper declared in src/data.rs: a struct with
a single `data` field. -/
structure StoreJsonRequest where
  data : Json

/-- Serde serialization of `StoreJsonRequest` as derived in the source: an
object with the single key "data" holding the payload. -/
def StoreJsonRequest.serialize (r : StoreJsonRequest) : Json :=
  Json.obj [("data", r.data)]

/-- One request issued by a store operation, body included. -/
structure StoreReqEvent where
  method : Method
  path : String
  body : Json

/-- Embedding of `data::store_json_ipfs`: POST `/data/json/ipfs` on the
uploader with the payload itself as json body, decode the response as
`StoreResponse`, and compare the echoed cid to `expected_cid` by plain string
equality, failing with `CidMismatch (got, expected)` on inequality. The
second component records the one request issued, body included. -/
def store_json_ipfs (json : Json) (expected_cid : String)
    (data_uploader_http_client : Method → String → Json → HttpOutcome StoreResponse) :
    Except StoreJsonIpfsError Unit × List StoreReqEvent :=
  let path := "/data/json/ipfs"
  let event : StoreReqEvent := ⟨.POST, path, json⟩
  match data_uploader_http_client .POST path json with
  | .constructionFailure err => (.error (.RequestConstruction err), [event])
  | .sendFailure err => (.error (.Request err), [event])
  | .decodeFailure err => (.error (.Deserialization err), [event])
  | .success store_response =>
    if store_response.cid ≠ expected_cid then
      (.error (.CidMismatch store_response.cid expected_cid), [event])
    else
      (.ok (), [event])

end data

namespace ipfs

/-- Error type of the gateway-only fetch in src/ipfs.rs. -/
inductive FetchJsonError where
  | RequestConstruction (err : String)
  | Request (err : String)
  | Deserialization (err : String)
deriving DecidableEq, Repr

/-- The per-attempt closure of `ipfs::fetch_json_with_retry`: POST
`/api/v0/cat?arg=<cid>` on the gateway with the cid used verbatim (no
lowercasing), classifying construction and transport errors as `Transient`
and decode errors as `Permanent`. The second component records the one
request issued. -/
def fetch_attempt {J : Type} (cid : String) (ipfs_http_client : ClientFun J) :
    Except (BackoffError FetchJsonError) J × List (Method × String) :=
  let path := "/api/v0/cat?arg=" ++ cid
  let result : Except (BackoffError FetchJsonError) J :=
    match ipfs_http_client .POST path with
    | .constructionFailure err => .error (.Transient (.RequestConstruction err) none)
    | .sendFailure err => .error (.Transient (.Request err) none)
    | .decodeFailure err => .error (.Permanent (.Deserialization err))
    | .success v => .ok v
  (result, [(.POST, path)])

/-- Embedding of `ipfs::fetch_json_with_retry`: the per-attempt closure run
under the retry driver, with the client indexed by attempt number. -/
def fetch_json_with_retry {J : Type} (cid : String)
    (ipfs_http_client : Nat → ClientFun J) (fuel : Nat) :
    Except FetchJsonError J × Nat :=
  retryDriver (fun i => (fetch_attempt cid (ipfs_http_client i)).1) fuel 0

/-- Error type of the pin operation in src/ipfs.rs. -/
inductive IpfsPinError where
  | RequestConstruction (err : String)
  | Request (err : String)
  | Deserialization (err : String)
  | InconsistentPinnedCidsAmount (n : Nat)
  | CidMismatch (got : String) (expected : String)
deriving DecidableEq, Repr

/-- Response body of `/api/v0/pin/add`: the PascalCase `Pins` list. -/
structure PinResponse where
  pins : List String
deriving DecidableEq, Repr

/-- The per-attempt closure of `ipfs::pin_cid_with_retry`: POST
`/api/v0/pin/add?arg=<cid>`, classify construction, transport and decode
errors all as `Transient`; then require the decoded pin list to have exactly
one element (`InconsistentPinnedCidsAmount`, `Permanent`, otherwise) equal to
the supplied cid (`CidMismatch (got, expected)`, `Permanent`, otherwise). -/
def pin_cid_operation (cid : String)
    (ipfs_http_client : ClientFun PinResponse) :
    Except (BackoffError IpfsPinError) Unit :=
  match ipfs_http_client .POST ("/api/v0/pin/add?arg=" ++ cid) with
  | .constructionFailure err => .error (.Transient (.RequestConstruction err) none)
  | .sendFailure err => .error (.Transient (.Request err) none)
  | .decodeFailure err => .error (.Transient (.Deserialization err) none)
  | .success res =>
    let pins := res.pins
    if hlen : pins.length ≠ 1 then
      .error (.Permanent (.InconsistentPinnedCidsAmount pins.length))
    else
      let pin := pins.head (by
        intro hnil
        rw [hnil] at hlen
        exact hlen (by decide))
      if pin ≠ cid then
        .error (.Permanent (.CidMismatch pin cid))
      else
        .ok ()

/-- Embedding of `ipfs::pin_cid_with_retry`: the pin closure run under the
retry driver, with the client indexed by attempt number. -/
def pin_cid_with_retry (cid : String)
    (ipfs_http_client : Nat → ClientFun PinResponse) (fuel : Nat) :
    Except IpfsPinError Unit × Nat :=
  retryDriver (fun i => pin_cid_operation cid (ipfs_http_client i)) fuel 0

/-- Error type of the web3.storage re-pin in src/ipfs.rs. -/
inductive Web3StoragePinError where
  | GetCarRequestConstruction (err : String)
  | GetCarRequest (err : String)
  | UploadCarRequestConstruction (err : String)
  | UploadCarRequest (err : String)
  | UploadCarDeserialization (err : String)
  | CidMismatch (got : String) (expected : String)
deriving DecidableEq, Repr

/-- Holds when the error is the `CidMismatch` variant. -/
def Web3StoragePinError.isCidMismatch : Web3StoragePinError → Bool
  | .CidMismatch _ _ => true
  | _ => false

/-- Response body of the `/car` upload: a single `cid` field. -/
structure CARUploadResponse where
  cid : String
deriving DecidableEq, Repr

/-- The per-attempt closure of `ipfs::pin_cid_web3_storage_with_retry`:
POST `/api/v0/dag/export?arg=<cid>&progress=false` on the gateway and obtain
a raw body stream (type `B`); POST it to `/car` on the web3.storage client
and decode the response as `CARUploadResponse`. Every construction,
transport and decode error of either request is `Transient`; an echoed cid
differing from the supplied one is the only `Permanent` error,
`CidMismatch (got, expected)`. -/
def pin_cid_web3_storage_operation {B : Type} (cid : String)
    (ipfs_http_client : Method → String → SendOutcome B)
    (web3_storage_http_client : Method → String → B → HttpOutcome CARUploadResponse) :
    Except (BackoffError Web3StoragePinError) Unit :=
  match ipfs_http_client .POST ("/api/v0/dag/export?arg=" ++ cid ++ "&progress=false") with
  | .constructionFailure err => .error (.Transient (.GetCarRequestConstruction err) none)
  | .sendFailure err => .error (.Transient (.GetCarRequest err) none)
  | .success body =>
    match web3_storage_http_client .POST "/car" body with
    | .constructionFailure err => .error (.Transient (.UploadCarRequestConstruction err) none)
    | .sendFailure err => .error (.Transient (.UploadCarRequest err) none)
    | .decodeFailure err => .error (.Transient (.UploadCarDeserialization err) none)
    | .success car_upload_response =>
      if car_upload_response.cid ≠ cid then
        .error (.Permanent (.CidMismatch car_upload_response.cid cid))
      else
        .ok ()

/-- Embedding of `ipfs::pin_cid_web3_storage_with_retry`: the re-pin closure
run under the retry driver, with the clients indexed by attempt number. -/
def pin_cid_web3_storage_with_retry {B : Type} (cid : String)
    (ipfs_http_client : Nat → Method → String → SendOutcome B)
    (web3_storage_http_client : Nat → Method → String → B → HttpOutcome CARUploadResponse)
    (fuel : Nat) :
    Except Web3StoragePinError Unit × Nat :=
  retryDriver
    (fun i =>
      pin_cid_web3_storage_operation cid (ipfs_http_client i)
        (web3_storage_http_client i))
    fuel 0

end ipfs

namespace http_client

/-- Error type of the HTTP client in src/http_client.rs; the underlying
reqwest and url-parse errors are kept as opaque strings. -/
inductive HttpClientError where
  | Initialization (err : String)
  | MalformedUrl (base : String) (err : String)
  | PathJoin (base : String) (path : String) (err : String)
deriving DecidableEq, Repr

/-- An in-flight, not-yet-sent request as produced by
`HttpClient::request`: method, joined url, and the bearer token attached
when one is configured. -/
structure RequestBuilder where
  method : Method
  url : String
  bearer_auth : Option String
deriving DecidableEq, Repr

/-- The observable suspensions of `HttpClient::request`: waiting on the rate
limiter, or (never emitted by `request` itself) a network send. -/
inductive Effect where
  | untilReady
  | networkSend
deriving DecidableEq, Repr

/-- The HTTP client state after build: base url, optional bearer token,
optional rate limiter (only its presence matters to the embedding). -/
structure HttpClient where
  base_url : String
  bearer_auth_token : Option String
  rate_limiter : Option Unit

/-- Embedding of `HttpClient::request`, parameterized by the url crate's
join function `joinUrl` (base, path ↦ joined url or parse error), which the
embedding keeps abstract. Join `path` onto `base_url`; a join failure is
`PathJoin (base, path, err)` and produces no effect at all; after a
successful join, wait on the rate limiter exactly when one is configured,
then return the request builder for the joined url with the bearer token
attached exactly when one is configured. No network send is performed. -/
def HttpClient.request (joinUrl : String → String → Except String String)
    (self : HttpClient) (method : Method) (path : String) :
    Except HttpClientError RequestBuilder × List Effect :=
  match joinUrl self.base_url path with
  | .error err => (.error (.PathJoin self.base_url path err), [])
  | .ok url =>
    let effects : List Effect :=
      match self.rate_limiter with
      | some _ => [.untilReady]
      | none => []
    let builder : RequestBuilder := ⟨method, url, none⟩
    let builder : RequestBuilder :=
      match self.bearer_auth_token with
      | some token => { builder with bearer_auth := some token }
      | none => builder
    (.ok builder, effects)

end http_client

namespace data

/-- Error type of the store-CID operation described in spec section 4.4. -/
inductive StoreCidError where
  | RequestConstruction (err : String)
  | Request (err : String)
  | Deserialization (err : String)
  | CidMismatch (got : String) (expected : String)
deriving DecidableEq, Repr

/-- Modelled from the spec: the sources under src do not contain the
store-CID-via-uploader operation of spec section 4.4 (`store_cid`); this
definition follows the spec's words. POST `/data/ipfs` on the uploader with
json body `{"cid": "<cid>"}`, decode the response as `{"cid": "<string>"}`,
and compare the echoed cid to the supplied cid with byte-exact string
equality, failing with `CidMismatch (got, expected)` on mismatch and
returning unit on equality. The second component records the one request
issued, body included. -/
def store_cid (cid : String)
    (uploader_client : Method → String → Json → HttpOutcome StoreResponse) :
    Except StoreCidError Unit × List StoreReqEvent :=
  let body := Json.obj [("cid", Json.str cid)]
  let event : StoreReqEvent := ⟨.POST, "/data/ipfs", body⟩
  match uploader_client .POST "/data/ipfs" body with
  | .constructionFailure err => (.error (.RequestConstruction err), [event])
  | .sendFailure err => (.error (.Request err), [event])
  | .decodeFailure err => (.error (.Deserialization err), [event])
  | .success res =>
    if res.cid ≠ cid then
      (.error (.CidMismatch res.cid cid), [event])
    else
      (.ok (), [event])

end data

/-- C3: `store_json_ipfs` compares the echoed cid to `expected_cid` by
byte-exact string equality with no case normalization, fails with
`CidMismatch (got, expected)` in that order on inequality, and returns unit
on equality. -/
theorem c3_store_json_ipfs_byte_exact_cid_comparison
    (json : Json) (expected_cid : String)
    (client : Method → String → Json → HttpOutcome data.StoreResponse)
    (got : String)
    (h : client Method.POST "/data/json/ipfs" json = .success ⟨got⟩) :
    (got ≠ expected_cid →
      (data.store_json_ipfs json expected_cid client).1 =
        .error (.CidMismatch got expected_cid))
    ∧ (got = expected_cid →
      (data.store_json_ipfs json expected_cid client).1 = .ok ()) := by
  constructor
  · intro hne
    simp [data.store_json_ipfs, h, hne]
  · intro heq
    simp [data.store_json_ipfs, h, heq]

/-- C3 witness: a response cid "ABC" against expected "abc" is a
`CidMismatch ("ABC", "abc")`. -/
theorem c3_store_json_ipfs_byte_exact_cid_comparison_witness :
    (data.store_json_ipfs Json.null "abc"
        (fun _ _ _ => .success ⟨"ABC"⟩)).1 =
      .error (.CidMismatch "ABC" "abc") :=
  (c3_store_json_ipfs_byte_exact_cid_comparison Json.null "abc"
      (fun _ _ _ => .success ⟨"ABC"⟩) "ABC" rfl).1 (by decide)

/-- C9: `store_json_ipfs` sends the supplied payload itself as the json body
of POST `/data/json/ipfs`, not the `StoreJsonRequest` wrapping
`{"data": payload}`; the wrapper type exists in the module but its
serialization differs from the raw payload. -/
theorem c9_store_json_ipfs_body_is_raw_payload
    (json : Json) (expected_cid : String)
    (client : Method → String → Json → HttpOutcome data.StoreResponse) :
    (data.store_json_ipfs json expected_cid client).2 =
      [⟨Method.POST, "/data/json/ipfs", json⟩]
    ∧ ∃ j : Json, (data.StoreJsonRequest.mk j).serialize ≠ j := by
  constructor
  · unfold data.store_json_ipfs
    rcases h : client Method.POST "/data/json/ipfs" json with e | e | e | v <;>
      simp [h, apply_ite Prod.snd]
  · exact ⟨Json.null, by simp [data.StoreJsonRequest.serialize]⟩

/-- C4: `fetch_json` lowercases the cid before any request: the first (and
mirror) request is a GET whose path is the lowercased cid, and any gateway
request is a POST on `/api/v0/cat?arg=` followed by the lowercased cid. -/
theorem c4_fetch_json_lowercases_cid_for_both_tiers {J : Type}
    (cid : String) (s3_http_client ipfs_http_client : ClientFun J) :
    (data.fetch_json cid s3_http_client ipfs_http_client).2.head? =
      some ⟨UpstreamId.mirror, Method.GET, lowercase cid⟩
    ∧ (∀ ev ∈ (data.fetch_json cid s3_http_client ipfs_http_client).2,
        ev.target = UpstreamId.gateway →
          ev.method = Method.POST ∧ ev.path = "/api/v0/cat?arg=" ++ lowercase cid) := by
  unfold data.fetch_json
  rcases hs : s3_http_client Method.GET (lowercase cid) with e | e | e | v
  · simp [hs]
  · rcases hg : ipfs_http_client Method.POST ("/api/v0/cat?arg=" ++ lowercase cid)
      with e2 | e2 | e2 | v2 <;> simp [hs, hg]
  · simp [hs]
  · simp [hs]

/-- C4 witness: fetching cid "AbC" with a mirror that fails at transport
issues a mirror GET on "abc" first, and the gateway request is a POST on
"/api/v0/cat?arg=abc". -/
theorem c4_fetch_json_lowercases_cid_for_both_tiers_witness :
    (data.fetch_json (J := Nat) "AbC"
        (fun _ _ => .sendFailure "reset") (fun _ _ => .success 3)).2.head? =
      some ⟨UpstreamId.mirror, Method.GET, lowercase "AbC"⟩
    ∧ ((⟨UpstreamId.gateway, Method.POST, "/api/v0/cat?arg=abc"⟩ : ReqEvent).method = Method.POST
    ∧ (⟨UpstreamId.gateway, Method.POST, "/api/v0/cat?arg=abc"⟩ : ReqEvent).path =
        "/api/v0/cat?arg=" ++ lowercase "AbC") :=
  ⟨(c4_fetch_json_lowercases_cid_for_both_tiers "AbC"
      (fun _ _ => .sendFailure "reset") (fun _ _ => .success 3)).1,
   (c4_fetch_json_lowercases_cid_for_both_tiers "AbC"
      (fun _ _ => .sendFailure "reset") (fun _ _ => .success 3)).2
     ⟨UpstreamId.gateway, Method.POST, "/api/v0/cat?arg=abc"⟩ (by decide) rfl⟩

/-- C1: in the two-tier fetch, a mirror whose send succeeds but whose body
fails to decode is a terminal `Deserialization` error with the gateway never
contacted; the gateway is contacted exactly when the mirror's send step
fails at the transport level, and in that case the overall result is the
gateway's response, with its construction, transport and decode errors
propagating as `RequestConstruction`, `Request` and `Deserialization`. -/
theorem c1_fetch_json_mirror_decode_terminal_fallback_iff_send_failure
    {J : Type} (cid : String) (s3_http_client ipfs_http_client : ClientFun J) :
    (∀ e, s3_http_client Method.GET (lowercase cid) = .decodeFailure e →
      (data.fetch_json cid s3_http_client ipfs_http_client).1 =
          .error (.Deserialization e)
        ∧ ∀ ev ∈ (data.fetch_json cid s3_http_client ipfs_http_client).2,
            ev.target ≠ UpstreamId.gateway)
    ∧ ((∃ ev ∈ (data.fetch_json cid s3_http_client ipfs_http_client).2,
          ev.target = UpstreamId.gateway) ↔
        ∃ e, s3_http_client Method.GET (lowercase cid) = .sendFailure e)
    ∧ (∀ e, s3_http_client Method.GET (lowercase cid) = .sendFailure e →
        (data.fetch_json cid s3_http_client ipfs_http_client).1 =
          match ipfs_http_client Method.POST ("/api/v0/cat?arg=" ++ lowercase cid) with
          | .constructionFailure err => .error (.RequestConstruction err)
          | .sendFailure err => .error (.Request err)
          | .decodeFailure err => .error (.Deserialization err)
          | .success v => .ok v) := by
  unfold data.fetch_json
  rcases hs : s3_http_client Method.GET (lowercase cid) with e | e | e | v
  · simp [hs]
  · rcases hg : ipfs_http_client Method.POST ("/api/v0/cat?arg=" ++ lowercase cid)
      with e2 | e2 | e2 | v2 <;> simp [hs, hg]
  · simp [hs]
  · simp [hs]

/-- C1 witness: with a mirror that decodes badly the result is the
`Deserialization` error and no gateway request exists in the trace. -/
theorem c1_fetch_json_mirror_decode_terminal_fallback_iff_send_failure_witness :
    (data.fetch_json (J := Nat) "bafy123"
        (fun _ _ => .decodeFailure "bad json") (fun _ _ => .success 3)).1 =
      .error (.Deserialization "bad json")
    ∧ ∀ ev ∈ (data.fetch_json (J := Nat) "bafy123"
        (fun _ _ => .decodeFailure "bad json") (fun _ _ => .success 3)).2,
        ev.target ≠ UpstreamId.gateway :=
  (c1_fetch_json_mirror_decode_terminal_fallback_iff_send_failure
      "bafy123" (fun _ _ => .decodeFailure "bad json")
      (fun _ _ => .success 3)).1 "bad json" rfl

/-- C2: the pin attempt classifies construction, transport and decode errors
as `Transient` (decode included); a decoded pin list whose length is not 1
is the `Permanent` error `InconsistentPinnedCidsAmount n`; a single element
differing from the cid is the `Permanent` error `CidMismatch (got, cid)`;
and a single element equal to the cid is success. -/
theorem c2_pin_cid_error_classification
    (cid : String) (ipfs_http_client : ClientFun ipfs.PinResponse) :
    (∀ e, ipfs_http_client Method.POST ("/api/v0/pin/add?arg=" ++ cid) =
        .constructionFailure e →
      ipfs.pin_cid_operation cid ipfs_http_client =
        .error (.Transient (.RequestConstruction e) none))
    ∧ (∀ e, ipfs_http_client Method.POST ("/api/v0/pin/add?arg=" ++ cid) =
        .sendFailure e →
      ipfs.pin_cid_operation cid ipfs_http_client =
        .error (.Transient (.Request e) none))
    ∧ (∀ e, ipfs_http_client Method.POST ("/api/v0/pin/add?arg=" ++ cid) =
        .decodeFailure e →
      ipfs.pin_cid_operation cid ipfs_http_client =
        .error (.Transient (.Deserialization e) none))
    ∧ (∀ pins, ipfs_http_client Method.POST ("/api/v0/pin/add?arg=" ++ cid) =
        .success ⟨pins⟩ → pins.length ≠ 1 →
      ipfs.pin_cid_operation cid ipfs_http_client =
        .error (.Permanent (.InconsistentPinnedCidsAmount pins.length)))
    ∧ (∀ p, ipfs_http_client Method.POST ("/api/v0/pin/add?arg=" ++ cid) =
        .success ⟨[p]⟩ → p ≠ cid →
      ipfs.pin_cid_operation cid ipfs_http_client =
        .error (.Permanent (.CidMismatch p cid)))
    ∧ (ipfs_http_client Method.POST ("/api/v0/pin/add?arg=" ++ cid) =
        .success ⟨[cid]⟩ →
      ipfs.pin_cid_operation cid ipfs_http_client = .ok ()) := by
  refine ⟨?_, ?_, ?_, ?_, ?_, ?_⟩
  · intro e h
    simp [ipfs.pin_cid_operation, h]
  · intro e h
    simp [ipfs.pin_cid_operation, h]
  · intro e h
    simp [ipfs.pin_cid_operation, h]
  · intro pins h hlen
    simp [ipfs.pin_cid_operation, h, hlen]
  · intro p h hne
    simp [ipfs.pin_cid_operation, h, hne]
  · intro h
    simp [ipfs.pin_cid_operation, h]

/-- C2 witness: a pin response listing the cid twice is the `Permanent`
error `InconsistentPinnedCidsAmount 2`, and a singleton response with a
different cid is the `Permanent` error `CidMismatch`. -/
theorem c2_pin_cid_error_classification_witness :
    ipfs.pin_cid_operation "abc" (fun _ _ => .success ⟨["abc", "abc"]⟩) =
      .error (.Permanent (.InconsistentPinnedCidsAmount 2))
    ∧ ipfs.pin_cid_operation "abc" (fun _ _ => .success ⟨["abd"]⟩) =
      .error (.Permanent (.CidMismatch "abd" "abc")) :=
  ⟨((c2_pin_cid_error_classification "abc"
        (fun _ _ => .success ⟨["abc", "abc"]⟩)).2.2.2.1
      ["abc", "abc"] rfl (by decide)),
   ((c2_pin_cid_error_classification "abc"
        (fun _ _ => .success ⟨["abd"]⟩)).2.2.2.2.1
      "abd" rfl (by decide))⟩

/-- C6: in the web3.storage re-pin attempt, every construction, transport
and deserialization error from either the gateway dag-export or the `/car`
upload is classified `Transient`, and the only `Permanent` failure is a
`CidMismatch` with an echoed cid differing from the supplied one. -/
theorem c6_pin_cid_web3_storage_error_classification
    {B : Type} (cid : String)
    (ipfs_http_client : Method → String → SendOutcome B)
    (web3_storage_http_client : Method → String → B → HttpOutcome ipfs.CARUploadResponse) :
    (∀ e, ipfs_http_client Method.POST
        ("/api/v0/dag/export?arg=" ++ cid ++ "&progress=false") =
          .constructionFailure e →
      ipfs.pin_cid_web3_storage_operation cid ipfs_http_client web3_storage_http_client =
        .error (.Transient (.GetCarRequestConstruction e) none))
    ∧ (∀ e, ipfs_http_client Method.POST
        ("/api/v0/dag/export?arg=" ++ cid ++ "&progress=false") = .sendFailure e →
      ipfs.pin_cid_web3_storage_operation cid ipfs_http_client web3_storage_http_client =
        .error (.Transient (.GetCarRequest e) none))
    ∧ (∀ body, ipfs_http_client Method.POST
        ("/api/v0/dag/export?arg=" ++ cid ++ "&progress=false") = .success body →
      (∀ e, web3_storage_http_client Method.POST "/car" body = .constructionFailure e →
        ipfs.pin_cid_web3_storage_operation cid ipfs_http_client web3_storage_http_client =
          .error (.Transient (.UploadCarRequestConstruction e) none))
      ∧ (∀ e, web3_storage_http_client Method.POST "/car" body = .sendFailure e →
        ipfs.pin_cid_web3_storage_operation cid ipfs_http_client web3_storage_http_client =
          .error (.Transient (.UploadCarRequest e) none))
      ∧ (∀ e, web3_storage_http_client Method.POST "/car" body = .decodeFailure e →
        ipfs.pin_cid_web3_storage_operation cid ipfs_http_client web3_storage_http_client =
          .error (.Transient (.UploadCarDeserialization e) none))
      ∧ (∀ got, web3_storage_http_client Method.POST "/car" body = .success ⟨got⟩ →
          (got ≠ cid →
            ipfs.pin_cid_web3_storage_operation cid ipfs_http_client web3_storage_http_client =
              .error (.Permanent (.CidMismatch got cid)))
          ∧ (got = cid →
            ipfs.pin_cid_web3_storage_operation cid ipfs_http_client web3_storage_http_client =
              .ok ())))
    ∧ (∀ e, ipfs.pin_cid_web3_storage_operation cid ipfs_http_client web3_storage_http_client =
        .error (.Permanent e) → ∃ got, got ≠ cid ∧ e = .CidMismatch got cid) := by
  refine ⟨?_, ?_, ?_, ?_⟩
  · intro e h
    simp [ipfs.pin_cid_web3_storage_operation, h]
  · intro e h
    simp [ipfs.pin_cid_web3_storage_operation, h]
  · intro body hb
    refine ⟨?_, ?_, ?_, ?_⟩
    · intro e h
      simp [ipfs.pin_cid_web3_storage_operation, hb, h]
    · intro e h
      simp [ipfs.pin_cid_web3_storage_operation, hb, h]
    · intro e h
      simp [ipfs.pin_cid_web3_storage_operation, hb, h]
    · intro got h
      constructor
      · intro hne
        simp [ipfs.pin_cid_web3_storage_operation, hb, h, hne]
      · intro heq
        simp [ipfs.pin_cid_web3_storage_operation, hb, h, heq]
  · intro e h
    unfold ipfs.pin_cid_web3_storage_operation at h
    rcases hdag : ipfs_http_client Method.POST
        ("/api/v0/dag/export?arg=" ++ cid ++ "&progress=false") with e1 | e1 | body <;>
      simp only [hdag] at h
    · exact absurd h (by simp)
    · exact absurd h (by simp)
    · rcases hcar : web3_storage_http_client Method.POST "/car" body
        with e2 | e2 | e2 | res <;> simp only [hcar] at h
      · exact absurd h (by simp)
      · exact absurd h (by simp)
      · exact absurd h (by simp)
      · by_cases hcid : res.cid = cid
        · simp [hcid] at h
        · refine ⟨res.cid, hcid, ?_⟩
          simp [hcid] at h
          first
            | exact h
            | exact h.symm

/-- C6 witness: a decode failure on the `/car` upload is the `Transient`
error `UploadCarDeserialization`, and an echoed cid "bad" against supplied
"abc" is the `Permanent` error `CidMismatch ("bad", "abc")`. -/
theorem c6_pin_cid_web3_storage_error_classification_witness :
    ipfs.pin_cid_web3_storage_operation (B := Nat) "abc"
        (fun _ _ => .success 0) (fun _ _ _ => .decodeFailure "junk") =
      .error (.Transient (.UploadCarDeserialization "junk") none)
    ∧ ipfs.pin_cid_web3_storage_operation (B := Nat) "abc"
        (fun _ _ => .success 0) (fun _ _ _ => .success ⟨"bad"⟩) =
      .error (.Permanent (.CidMismatch "bad" "abc")) :=
  ⟨(((c6_pin_cid_web3_storage_error_classification "abc"
        (fun _ _ => .success 0) (fun _ _ _ => .decodeFailure "junk")).2.2.1
      0 rfl).2.2.1 "junk" rfl),
   ((((c6_pin_cid_web3_storage_error_classification "abc"
        (fun _ _ => .success 0) (fun _ _ _ => .success ⟨"bad"⟩)).2.2.1
      0 rfl).2.2.2 "bad" rfl).1 (by decide))⟩

/-- C7: `HttpClient.request` joins the path first and a join failure is
`PathJoin (base, path, err)` with no effect at all (the rate limiter is not
touched); on a successful join the only effect is `untilReady` exactly when
a rate limiter is configured; the returned builder carries the method, the
joined url and the bearer token exactly when one is configured; no network
send is ever performed. -/
theorem c7_http_client_request_join_limiter_bearer
    (joinUrl : String → String → Except String String)
    (self : http_client.HttpClient) (method : Method) (path : String) :
    (∀ err, joinUrl self.base_url path = .error err →
      http_client.HttpClient.request joinUrl self method path =
        (.error (.PathJoin self.base_url path err), []))
    ∧ (∀ url, joinUrl self.base_url path = .ok url →
      (http_client.HttpClient.request joinUrl self method path).1 =
          .ok ⟨method, url, self.bearer_auth_token⟩
        ∧ ((http_client.HttpClient.request joinUrl self method path).2 =
              [http_client.Effect.untilReady] ↔ self.rate_limiter.isSome)
        ∧ ((http_client.HttpClient.request joinUrl self method path).2 = [] ↔
            self.rate_limiter = none))
    ∧ http_client.Effect.networkSend ∉
        (http_client.HttpClient.request joinUrl self method path).2 := by
  refine ⟨?_, ?_, ?_⟩
  · intro err h
    simp [http_client.HttpClient.request, h]
  · intro url h
    refine ⟨?_, ?_, ?_⟩
    · rcases htok : self.bearer_auth_token with _ | token <;>
        simp [http_client.HttpClient.request, h, htok]
    · rcases hrl : self.rate_limiter with _ | u <;>
        simp [http_client.HttpClient.request, h, hrl]
    · rcases hrl : self.rate_limiter with _ | u <;>
        simp [http_client.HttpClient.request, h, hrl]
  · rcases hj : joinUrl self.base_url path with err | url <;>
      rcases hrl : self.rate_limiter with _ | u <;>
        simp [http_client.HttpClient.request, hj, hrl]

/-- C7 witness: with a limiter configured and a join returning the url
unchanged, the builder carries the bearer token and the single effect is the
rate-limiter wait. -/
theorem c7_http_client_request_join_limiter_bearer_witness :
    (http_client.HttpClient.request (fun _ p => .ok p)
        ⟨"https://cdn.example/", some "tok", some ()⟩ Method.GET "bafy").1 =
      .ok ⟨Method.GET, "bafy", some "tok"⟩
    ∧ ((http_client.HttpClient.request (fun _ p => .ok p)
        ⟨"https://cdn.example/", some "tok", some ()⟩ Method.GET "bafy").2 =
      [http_client.Effect.untilReady] ↔
        (Option.some ()).isSome) :=
  ⟨((c7_http_client_request_join_limiter_bearer (fun _ p => .ok p)
      ⟨"https://cdn.example/", some "tok", some ()⟩ Method.GET "bafy").2.1
    "bafy" rfl).1,
   ((c7_http_client_request_join_limiter_bearer (fun _ p => .ok p)
      ⟨"https://cdn.example/", some "tok", some ()⟩ Method.GET "bafy").2.1
    "bafy" rfl).2.1⟩

/-- C8: `store_cid` POSTs `/data/ipfs` on the uploader with json body
an object with single key "cid" holding the cid, and on a decoded response
fails with `CidMismatch (got, expected)` exactly when the echoed cid differs
from the supplied one, returning unit on equality. -/
theorem c8_store_cid_contract (cid : String)
    (uploader_client : Method → String → Json → HttpOutcome data.StoreResponse) :
    (data.store_cid cid uploader_client).2 =
      [⟨Method.POST, "/data/ipfs", Json.obj [("cid", Json.str cid)]⟩]
    ∧ (∀ got, uploader_client Method.POST "/data/ipfs"
        (Json.obj [("cid", Json.str cid)]) = .success ⟨got⟩ →
      (got ≠ cid →
        (data.store_cid cid uploader_client).1 = .error (.CidMismatch got cid))
      ∧ (got = cid → (data.store_cid cid uploader_client).1 = .ok ())) := by
  constructor
  · unfold data.store_cid
    rcases h : uploader_client Method.POST "/data/ipfs"
        (Json.obj [("cid", Json.str cid)]) with e | e | e | v <;>
      simp [h, apply_ite Prod.snd]
  · intro got h
    constructor
    · intro hne
      simp [data.store_cid, h, hne]
    · intro heq
      simp [data.store_cid, h, heq]

/-- C8 witness: an echoed cid "abd" against supplied "abc" is a
`CidMismatch ("abd", "abc")`. -/
theorem c8_store_cid_contract_witness :
    (data.store_cid "abc" (fun _ _ _ => .success ⟨"abd"⟩)).1 =
      .error (.CidMismatch "abd" "abc") :=
  ((c8_store_cid_contract "abc" (fun _ _ _ => .success ⟨"abd"⟩)).2
    "abd" rfl).1 (by decide)

/-- C10: the gateway-only fetch attempt in the ipfs module uses the supplied
cid verbatim in `/api/v0/cat?arg=<cid>`, while the two-tier fetch in the
data module lowercases it first, so for the cid "ABC" the two entry points
request different gateway paths. -/
theorem c10_ipfs_fetch_uses_cid_verbatim_unlike_data_fetch
    {J : Type} (cid : String) (ipfs_http_client : ClientFun J) :
    (ipfs.fetch_attempt cid ipfs_http_client).2 =
      [(Method.POST, "/api/v0/cat?arg=" ++ cid)]
    ∧ (ipfs.fetch_attempt (J := Nat) "ABC" (fun _ _ => .success 0)).2 =
      [(Method.POST, "/api/v0/cat?arg=ABC")]
    ∧ (data.fetch_json (J := Nat) "ABC"
        (fun _ _ => .sendFailure "reset") (fun _ _ => .success 0)).2 =
      [⟨UpstreamId.mirror, Method.GET, "abc"⟩,
       ⟨UpstreamId.gateway, Method.POST, "/api/v0/cat?arg=abc"⟩]
    ∧ ("/api/v0/cat?arg=ABC" : String) ≠ "/api/v0/cat?arg=abc" := by
  refine ⟨rfl, by decide, by decide, by decide⟩

/-- C10 witness: the verbatim-path conjunct applied at the concrete cid
"ABC". -/
theorem c10_ipfs_fetch_uses_cid_verbatim_unlike_data_fetch_witness :
    (ipfs.fetch_attempt (J := Nat) "ABC" (fun _ _ => .success 0)).2 =
      [(Method.POST, "/api/v0/cat?arg=" ++ "ABC")] :=
  (c10_ipfs_fetch_uses_cid_verbatim_unlike_data_fetch "ABC"
    (fun _ _ => .success 0)).1

/-- Helper: the retry driver returns at once, after a single invocation, on
a `Permanent` error. -/
theorem retryDriver_permanent_stops {E A : Type}
    (op : Nat → Except (BackoffError E) A) (fuel i : Nat) (e : E)
    (h : op i = .error (.Permanent e)) :
    retryDriver op fuel i = (.error e, i + 1) := by
  simp only [retryDriver.eq_def, h]

/-- Helper: on a `Transient` error with budget remaining, the retry driver
re-invokes the operation at the next attempt index. -/
theorem retryDriver_transient_retries {E A : Type}
    (op : Nat → Except (BackoffError E) A) (f i : Nat) (e : E)
    (ra : Option Nat) (h : op i = .error (.Transient e ra)) :
    retryDriver op (f + 1) i = retryDriver op f (i + 1) := by
  conv_lhs => rw [retryDriver.eq_def]
  simp only [h]

/-- C5: `fetch_json_with_retry` maps `RequestConstruction` and `Request`
(transport) errors to `Transient` and `Deserialization` to `Permanent`, so
the driver performs exactly one attempt when the two-tier fetch fails with
`Deserialization`, and re-invokes the fetch (moving to the next attempt)
when it fails with a construction or transport error and budget remains. -/
theorem c5_fetch_json_with_retry_classification {J : Type} (cid : String)
    (s3_http_client ipfs_http_client : Nat → ClientFun J) (fuel : Nat) :
    (∀ e, data.classifyFetchError (.RequestConstruction e) =
      .Transient (.RequestConstruction e) none)
    ∧ (∀ e, data.classifyFetchError (.Request e) =
      .Transient (.Request e) none)
    ∧ (∀ e, data.classifyFetchError (.Deserialization e) =
      .Permanent (.Deserialization e))
    ∧ (∀ e, (data.fetch_json cid (s3_http_client 0) (ipfs_http_client 0)).1 =
        .error (.Deserialization e) →
      data.fetch_json_with_retry cid s3_http_client ipfs_http_client fuel =
        (.error (.Deserialization e), 1))
    ∧ (∀ f e, fuel = f + 1 →
      ((data.fetch_json cid (s3_http_client 0) (ipfs_http_client 0)).1 =
          .error (.RequestConstruction e) ∨
        (data.fetch_json cid (s3_http_client 0) (ipfs_http_client 0)).1 =
          .error (.Request e)) →
      data.fetch_json_with_retry cid s3_http_client ipfs_http_client fuel =
        retryDriver
          (fun i =>
            Except.mapError data.classifyFetchError
              (data.fetch_json cid (s3_http_client i) (ipfs_http_client i)).1)
          f 1) := by
  refine ⟨fun e => rfl, fun e => rfl, fun e => rfl, ?_, ?_⟩
  · intro e h
    unfold data.fetch_json_with_retry
    exact retryDriver_permanent_stops _ fuel 0 _ (by rw [h]; rfl)
  · intro f e hfuel hor
    subst hfuel
    unfold data.fetch_json_with_retry
    rcases hor with h | h
    · exact retryDriver_transient_retries _ f 0 _ none (by rw [h]; rfl)
    · exact retryDriver_transient_retries _ f 0 _ none (by rw [h]; rfl)

/-- C5 witness: a fetch whose mirror send succeeds with an undecodable body
under a budget of 5 retries returns the `Deserialization` error after
exactly one attempt. -/
theorem c5_fetch_json_with_retry_classification_witness :
    data.fetch_json_with_retry (J := Nat) "cid"
        (fun _ _ _ => .decodeFailure "bad") (fun _ _ _ => .success 0) 5 =
      (.error (.Deserialization "bad"), 1) :=
  (c5_fetch_json_with_retry_classification "cid"
      (fun _ _ _ => .decodeFailure "bad") (fun _ _ _ => .success 0) 5).2.2.2.1
    "bad" (by rfl)
